import Mathlib

/-!
# Temporary Containers: the tab lifecycle coordinator

A shallow embedding of `src/background/tabs.js` (class `Tabs`) and of
`BrowserAction.addBadge` from `src/background/browseraction.js`.

Conventions of the embedding.

* Every handler is a pure function from the registry state and a snapshot of
  the browser (`Host`) to a `Run`: the state and the browser after the handler,
  the trace of the calls it issued (in program order), and the error it
  rejected with, if any.
* Calls to collaborators that are not part of the two files
  (`container.maybeAddHistory`, `pageaction.showOrHide`, `mac.handleConfirmPage`,
  `container.reloadTabInTempContainer`, `container.addToRemoveQueue`) are recorded
  in the trace; their promises are taken to resolve. What such a call writes to
  the registry is the parameter `Env.collaborator`, applied where the call is
  made; the calls a collaborator makes to the browser are not followed.
* `debug(...)` is logging only and is left out of the trace.
* `delay(ms).then(f)` is recorded as `Event.delayThen ms cb`, where `cb` names the
  closure; firing the timer is running the function that embeds the closure.
* JavaScript truthiness is kept: `undefined` and the empty string are falsy, and
  so is the number `0`.
-/

namespace TemporaryContainers

/-! ## Data model -/

/-- Errors a handler can reject with. -/
inductive JsError where
  | typeError
  | hostError
deriving DecidableEq

/-- The fields of a `tabs.Tab` that `tabs.js` reads. `url` and `cookieStoreId`
may be `undefined`. -/
structure Tab where
  id : Nat
  windowId : Nat
  index : Nat
  url : Option String
  cookieStoreId : Option String
  incognito : Bool
  active : Bool
deriving DecidableEq

/-- The `changeInfo` object of `tabs.onUpdated`; the default parameter value of
`maybeReloadInTempContainer` is the empty object. -/
structure ChangeInfo where
  status : Option String
  url : Option String
deriving DecidableEq

/-- The empty object `{}`. -/
def ChangeInfo.empty : ChangeInfo := ⟨none, none⟩

/-- Truthiness of a value that is a string or `undefined`. -/
def truthy : Option String → Bool
  | some s => s != ""
  | none => false

/-- The expression `v && v.startsWith(p)` for a string-or-undefined `v`. -/
def startsWith (v : Option String) (p : String) : Bool :=
  match v with
  | some s => s != "" && p.data.isPrefixOf s.data
  | none => false

/-- The property key a string-or-undefined value is converted to. -/
def keyOf : Option String → String
  | some s => s
  | none => "undefined"

/-! ## Preferences -/

/-- Object `pref.automaticMode`. -/
structure AutomaticMode where
  active : Bool
  newTab : String
deriving DecidableEq

/-- Object `pref.deletesHistory`. -/
structure DeletesHistory where
  automaticMode : String
deriving DecidableEq

/-- Object `pref.isolation`. -/
structure Isolation where
  active : Bool
deriving DecidableEq

/-- Object `pref.closeRedirectorTabs`. -/
structure CloseRedirectorTabs where
  active : Bool
  domains : List String
  delay : Nat
deriving DecidableEq

/-- The preferences `this.pref` read by `tabs.js` and by `addBadge`. -/
structure Pref where
  automaticMode : AutomaticMode
  deletesHistory : DeletesHistory
  isolation : Isolation
  closeRedirectorTabs : CloseRedirectorTabs
deriving DecidableEq

/-! ## Registry state -/

/-- An entry of `storage.local.tempContainers`; only `clean` is read here. -/
structure TempContainer where
  clean : Bool
deriving DecidableEq

/-- The properties of `this.container` that `tabs.js` touches.
`lastCreatedInactiveTab` is the slot `[browser.windows.WINDOW_ID_CURRENT]`, the
only key the file ever uses; `none` stands for `false` or `undefined`.
`noContainerTabs` and `tabCreatedAsMacConfirmPage` are the sets of tab ids whose
entry is truthy. `creatingInSameContainer` is the property read by
`maybeReloadInTempContainer`; nothing in `tabs.js` writes it. -/
structure Container where
  tabContainerMap : List (Nat × String)
  lastCreatedInactiveTab : Option Nat
  noContainerTabs : List Nat
  tabCreatedAsMacConfirmPage : List Nat
  creatingInSameContainer : Bool
deriving DecidableEq

/-- The mutable state: the own property `creatingInSameContainer` of the `Tabs`
object, the container object, and `storage.local.tempContainers`. -/
structure State where
  creatingInSameContainer : Bool
  container : Container
  tempContainers : List (String × TempContainer)
deriving DecidableEq

/-- Property read `obj[k]` on an object kept as an association list. -/
def getProp {α β : Type} [DecidableEq α] (k : α) : List (α × β) → Option β
  | [] => none
  | (k', v) :: rest => if k' = k then some v else getProp k rest

/-- Statement `tempContainers[k].clean = false`, for an existing entry. -/
def markNotClean (k : String) : List (String × TempContainer) → List (String × TempContainer)
  | [] => []
  | (k', v) :: rest =>
    if k' = k then (k', { v with clean := false }) :: rest
    else (k', v) :: markNotClean k rest

/-! ## The browser -/

/-- The property names a plain object inherits from `Object.prototype`. -/
def objectPrototypeKeys : List String :=
  [ "constructor", "hasOwnProperty", "isPrototypeOf", "propertyIsEnumerable",
    "toLocaleString", "toString", "valueOf", "__proto__",
    "__defineGetter__", "__defineSetter__", "__lookupGetter__", "__lookupSetter__" ]

/-- Truthiness of the property read `tempContainers[k]`: an own entry is an
object, an inherited property is a function or the prototype object. -/
def tempContainersTruthy (k : String) (tempContainers : List (String × TempContainer)) : Bool :=
  (getProp k tempContainers).isSome || decide (k ∈ objectPrototypeKeys)

/-- A snapshot of the browser: its open tabs, the window that
`WINDOW_ID_CURRENT` and `currentWindow: true` resolve to, and whether the next
`tabs.query`, `tabs.create`, `tabs.remove` call is rejected by the host. Only
membership, ids and windows of tabs are tracked across calls. -/
structure Host where
  tabs : List Tab
  currentWindow : Nat
  queryFails : Bool
  createFails : Bool
  removeFails : Bool
deriving DecidableEq

/-- Call `browser.tabs.get(tabId)`: rejects when no such tab is open. -/
def Host.get (h : Host) (tabId : Nat) : Except JsError Tab :=
  match h.tabs.find? (fun t => t.id = tabId) with
  | some t => .ok t
  | none => .error .hostError

/-- The tabs of window `w`. -/
def Host.windowTabs (h : Host) (w : Nat) : List Tab :=
  h.tabs.filter (fun t => t.windowId = w)

/-- Call `browser.tabs.query({ windowId: browser.windows.WINDOW_ID_CURRENT })`. -/
def Host.queryCurrentWindow (h : Host) : Except JsError (List Tab) :=
  if h.queryFails then .error .hostError else .ok (h.windowTabs h.currentWindow)

/-- Call `browser.tabs.query({ active: true, currentWindow: true })`. -/
def Host.queryActiveCurrentWindow (h : Host) : Except JsError (List Tab) :=
  if h.queryFails then .error .hostError
  else .ok ((h.windowTabs h.currentWindow).filter (fun t => t.active))

/-- An id no open tab has. -/
def Host.freshId (h : Host) : Nat :=
  (h.tabs.map (fun t => t.id)).foldr max 0 + 1

/-- Call `browser.tabs.create({ index, cookieStoreId })`: the new tab gets a fresh
id and opens in the current window. -/
def Host.create (h : Host) (index : Option Nat) (cookieStoreId : Option String) :
    Except JsError (Tab × Host) :=
  if h.createFails then .error .hostError
  else
    let newTab : Tab :=
      { id := h.freshId
        windowId := h.currentWindow
        index := index.getD (h.windowTabs h.currentWindow).length
        url := some "about:newtab"
        cookieStoreId := cookieStoreId
        incognito := false
        active := true }
    .ok (newTab, { h with tabs := h.tabs ++ [newTab] })

/-- Call `browser.tabs.remove(tabId)`: rejects when no such tab is open. -/
def Host.remove (h : Host) (tabId : Nat) : Except JsError Host :=
  if h.removeFails then .error .hostError
  else
    match h.get tabId with
    | .ok _ => .ok { h with tabs := h.tabs.filter (fun t => t.id ≠ tabId) }
    | .error e => .error e

/-! ## Traces -/

/-- The closures handed to `delay(ms).then(...)`. -/
inductive Callback where
  | redirectorCheck (tabId : Nat)
  | remove (tab : Tab)
deriving DecidableEq

/-- The calls a handler issues. `addBadge` and `remove` mark calls of
`BrowserAction.addBadge` and `Tabs.remove`; the calls these make follow them in
the trace. -/
inductive Event where
  | browserActionDisable (tabId : Nat)
  | browserActionSetTitle (title : String) (tabId : Nat)
  | browserActionSetBadgeBackgroundColor (color : String) (tabId : Nat)
  | browserActionSetBadgeText (text : String) (tabId : Nat)
  | tabsMove (tabId : Nat) (index : Nat)
  | tabsCreate (index : Option Nat) (cookieStoreId : Option String)
  | tabsRemove (tabId : Nat)
  | maybeAddHistory (tab : Tab) (url : String)
  | showOrHide (tab : Tab)
  | handleConfirmPage (tab : Tab)
  | reloadTabInTempContainer (tab : Tab) (deletesHistory : Bool)
  | addToRemoveQueue (tabId : Nat)
  | addBadge (tabId : Nat)
  | remove (tab : Tab)
  | delayThen (ms : Nat) (cb : Callback)
deriving DecidableEq

/-- What the two files take from outside: `background.containerPrefix`, the
collaborator method `container.isTemporary` (its file is not part of the
sources, so it is a parameter), the platform URL parser (`hostname u` is
`new URL(u).hostname`, `none` when the constructor throws), and what a
collaborator call, named by its trace event, writes to the registry. -/
structure Env where
  containerPrefix : String
  isTemporary : Option String → Bool
  hostname : String → Option String
  collaborator : Event → State → State

/-- The outcome of running a handler. -/
structure Run where
  st : State
  host : Host
  trace : List Event
  err : Option JsError
deriving DecidableEq

/-! ## `browseraction.js` -/

/-- Method `BrowserAction.addBadge(tabId)`. -/
def addBadge (pref : Pref) (tabId : Nat) : List Event :=
  if !pref.isolation.active then [.addBadge tabId]
  else
    [ .addBadge tabId,
      .browserActionSetTitle "Automatic Mode on navigation active" tabId,
      .browserActionSetBadgeBackgroundColor "#f9f9fa" tabId,
      .browserActionSetBadgeText "A" tabId ]

/-! ## `tabs.js` -/

/-- Method `Tabs.remove(tab)`, one attempt; the retry is the timer it leaves. -/
def remove (s : State) (h : Host) (tab : Tab) : Run :=
  match h.queryCurrentWindow with
  | .error _ => ⟨s, h, [.remove tab], none⟩
  | .ok tabs =>
    if tabs.length > 1 then
      match h.remove tab.id with
      | .ok h1 => ⟨s, h1, [.remove tab, .tabsRemove tab.id], none⟩
      | .error _ => ⟨s, h, [.remove tab, .tabsRemove tab.id], none⟩
    else ⟨s, h, [.remove tab, .delayThen 500 (.remove tab)], none⟩

/-- The condition shared by the badge rule and the reload rule:
`tab.url === 'about:home' || tab.url === 'about:newtab' ||
(changeInfo.status === 'loading' && changeInfo.url === 'about:blank')`. -/
def homeNewTabOrBlank (tab : Tab) (changeInfo : ChangeInfo) : Bool :=
  tab.url == some "about:home" || tab.url == some "about:newtab" ||
    (changeInfo.status == some "loading" && changeInfo.url == some "about:blank")

/-- Method `Tabs.maybeReloadInTempContainer(tab, changeInfo)`. In the clean-flag
rule, `tempContainers[tab.cookieStoreId].clean` is falsy for an inherited
property, so only own entries count there. -/
def maybeReloadInTempContainer (env : Env) (pref : Pref) (s : State) (h : Host)
    (tab : Tab) (changeInfo : ChangeInfo) : Run :=
  if tab.incognito then ⟨s, h, [.browserActionDisable tab.id], none⟩
  else if s.container.creatingInSameContainer then ⟨s, h, [], none⟩
  else if tab.id ∈ s.container.noContainerTabs then ⟨s, h, [], none⟩
  else if startsWith tab.url "moz-extension://" then
    ⟨env.collaborator (.handleConfirmPage tab) s, h, [.handleConfirmPage tab], none⟩
  else if !pref.automaticMode.active then ⟨s, h, [], none⟩
  else
    let deletesHistoryContainer : Bool := pref.deletesHistory.automaticMode == "automatic"
    if !deletesHistoryContainer && pref.automaticMode.newTab == "navigation" &&
        tab.cookieStoreId == some (env.containerPrefix ++ "-default") &&
        homeNewTabOrBlank tab changeInfo then
      ⟨s, h, addBadge pref tab.id, none⟩
    else if tab.url == some "about:home" && env.isTemporary tab.cookieStoreId &&
        pref.automaticMode.newTab == "navigation" then
      let created := Event.tabsCreate none (some (env.containerPrefix ++ "-default"))
      match h.create none (some (env.containerPrefix ++ "-default")) with
      | .error e => ⟨s, h, [created], some e⟩
      | .ok (_, h1) =>
        let r := remove s h1 tab
        ⟨r.st, r.host, created :: (r.trace ++ addBadge pref tab.id), none⟩
    else if (pref.automaticMode.newTab == "created" || deletesHistoryContainer) &&
        tab.cookieStoreId == some (env.containerPrefix ++ "-default") &&
        homeNewTabOrBlank tab changeInfo then
      ⟨env.collaborator (.reloadTabInTempContainer tab deletesHistoryContainer) s, h,
        [.reloadTabInTempContainer tab deletesHistoryContainer], none⟩
    else if truthy tab.url && !startsWith tab.url "about:" &&
        !startsWith tab.url "moz-extension:" &&
        (match getProp (keyOf tab.cookieStoreId) s.tempContainers with
          | some c => c.clean
          | none => false) then
      ⟨{ s with tempContainers := markNotClean (keyOf tab.cookieStoreId) s.tempContainers },
        h, [], none⟩
    else ⟨s, h, [], none⟩

/-- Lines 42-67 of `onCreated`: the reordering step for an inactive new tab,
with the `try`/`catch` around `browser.tabs.get`. Returns the registry and the
calls issued. -/
def onCreatedReorder (s : State) (h : Host) (tab : Tab) : State × List Event :=
  match s.container.lastCreatedInactiveTab with
  | none => (s, [])
  | some last =>
    if !tab.active && last != 0 && last != tab.id then
      match h.get last with
      | .ok lastCreatedInactiveTab =>
        if lastCreatedInactiveTab.index > tab.index then
          ({ s with container := { s.container with lastCreatedInactiveTab := some tab.id } },
            [.tabsMove tab.id lastCreatedInactiveTab.index])
        else (s, [])
      | .error _ => (s, [])
    else (s, [])

/-- Lines 68-75 of `onCreated`: record the tab in `tabContainerMap` when
`tempContainers[tab.cookieStoreId]` is truthy and the tab has no truthy entry
yet. -/
def onCreatedRecord (s : State) (tab : Tab) : State :=
  if truthy tab.cookieStoreId &&
      !truthy (getProp tab.id s.container.tabContainerMap) &&
      tempContainersTruthy (keyOf tab.cookieStoreId) s.tempContainers then
    { s with container :=
        { s.container with
          tabContainerMap :=
            (tab.id, keyOf tab.cookieStoreId) :: s.container.tabContainerMap } }
  else s

/-- Method `Tabs.onCreated(tab)`. -/
def onCreated (env : Env) (pref : Pref) (s : State) (h : Host) (tab : Tab) : Run :=
  if tab.incognito then ⟨s, h, [.browserActionDisable tab.id], none⟩
  else
    let moved := onCreatedReorder s h tab
    let r := maybeReloadInTempContainer env pref (onCreatedRecord moved.1 tab) h tab
      ChangeInfo.empty
    { r with trace := moved.2 ++ r.trace }

/-- The closure `async () => { ... }` that `onUpdated` hands to
`delay(pref.closeRedirectorTabs.delay).then`, run when the timer fires. -/
def redirectorCheck (env : Env) (pref : Pref) (s : State) (h : Host) (tabId : Nat) : Run :=
  match h.get tabId with
  | .error _ => ⟨s, h, [], none⟩
  | .ok tab =>
    match tab.url.bind env.hostname with
    | none => ⟨s, h, [], none⟩
    | some hostname =>
      if hostname ∈ pref.closeRedirectorTabs.domains then
        match h.remove tabId with
        | .ok h1 => ⟨s, h1, [.tabsRemove tabId], none⟩
        | .error _ => ⟨s, h, [.tabsRemove tabId], none⟩
      else ⟨s, h, [], none⟩

/-- Lines 91-111 of `onUpdated`: schedule the redirector check. `new URL(tab.url)`
is outside any `try`, so a URL that does not parse makes the handler reject. -/
def onUpdatedSchedule (env : Env) (pref : Pref) (tabId : Nat) (changeInfo : ChangeInfo)
    (tab : Tab) : Except JsError (List Event) :=
  if pref.closeRedirectorTabs.active && changeInfo.status == some "complete" then
    match tab.url.bind env.hostname with
    | none => .error .typeError
    | some hostname =>
      if hostname ∈ pref.closeRedirectorTabs.domains then
        .ok [.delayThen pref.closeRedirectorTabs.delay (.redirectorCheck tabId)]
      else .ok []
  else .ok []

/-- Lines 87-90 of `onUpdated`: the awaited call of `container.maybeAddHistory`
when `changeInfo.url` is truthy. Returns the registry and the calls issued. -/
def onUpdatedHistory (env : Env) (s : State) (changeInfo : ChangeInfo) (tab : Tab) :
    State × List Event :=
  if truthy changeInfo.url then
    (env.collaborator (.maybeAddHistory tab (keyOf changeInfo.url)) s,
      [.maybeAddHistory tab (keyOf changeInfo.url)])
  else (s, [])

/-- Method `Tabs.onUpdated(tabId, changeInfo, tab)`. -/
def onUpdated (env : Env) (pref : Pref) (s : State) (h : Host)
    (tabId : Nat) (changeInfo : ChangeInfo) (tab : Tab) : Run :=
  if tab.incognito then ⟨s, h, [.browserActionDisable tab.id], none⟩
  else
    let history := onUpdatedHistory env s changeInfo tab
    match onUpdatedSchedule env pref tabId changeInfo tab with
    | .error e => ⟨history.1, h, history.2, some e⟩
    | .ok scheduled =>
      if !truthy changeInfo.url then ⟨history.1, h, history.2 ++ scheduled, none⟩
      else
        let r := maybeReloadInTempContainer env pref
          (env.collaborator (.showOrHide tab) history.1) h tab changeInfo
        { r with trace := history.2 ++ scheduled ++ [.showOrHide tab] ++ r.trace }

/-- Method `Tabs.onRemoved(tabId)`. The `Tabs` object has no property
`tabCreatedAsMacConfirmPage` (the constructor and `initialize` define none), so
`delete this.tabCreatedAsMacConfirmPage[tabId]` reads a property of `undefined`
and throws a `TypeError`. -/
def onRemoved (env : Env) (s : State) (h : Host) (tabId : Nat) : Run :=
  let s1 : State :=
    if tabId ∈ s.container.noContainerTabs then
      { s with container :=
          { s.container with
            noContainerTabs := s.container.noContainerTabs.filter (fun t => t ≠ tabId) } }
    else s
  if tabId ∈ s1.container.tabCreatedAsMacConfirmPage then ⟨s1, h, [], some .typeError⟩
  else ⟨env.collaborator (.addToRemoveQueue tabId) s1, h, [.addToRemoveQueue tabId], none⟩

/-- Method `Tabs.onActivated(activeInfo)`; `tabId` is `activeInfo.tabId`. -/
def onActivated (env : Env) (s : State) (h : Host) (tabId : Nat) : Run :=
  let s1 : State :=
    { s with container := { s.container with lastCreatedInactiveTab := none } }
  match h.get tabId with
  | .error e => ⟨s1, h, [], some e⟩
  | .ok activatedTab =>
    if !activatedTab.incognito then
      ⟨env.collaborator (.showOrHide activatedTab) s1, h, [.showOrHide activatedTab], none⟩
    else ⟨s1, h, [], none⟩

/-- The state in which `createInSameContainer` is suspended at its awaits: the
assignment `this.creatingInSameContainer = true` has run, nothing else has. -/
def createInSameContainerEntered (s : State) : State :=
  { s with creatingInSameContainer := true }

/-- Method `Tabs.createInSameContainer()`, run to its return. -/
def createInSameContainer (s : State) (h : Host) : Run :=
  let s1 := createInSameContainerEntered s
  match h.queryActiveCurrentWindow with
  | .error _ => ⟨{ s1 with creatingInSameContainer := false }, h, [], none⟩
  | .ok tabs =>
    match tabs.head? with
    | none => ⟨s1, h, [], none⟩
    | some activeTab =>
      let created := Event.tabsCreate (some (activeTab.index + 1)) activeTab.cookieStoreId
      match h.create (some (activeTab.index + 1)) activeTab.cookieStoreId with
      | .ok (_, h1) => ⟨{ s1 with creatingInSameContainer := false }, h1, [created], none⟩
      | .error _ => ⟨{ s1 with creatingInSameContainer := false }, h, [created], none⟩

/-! ## Sample data -/

/-- A sample environment: prefix `firefox`, one temporary container, a URL
parser that knows three pages, and collaborators that write nothing to the
registry. -/
def sampleEnv : Env :=
  { containerPrefix := "firefox"
    isTemporary := fun c => c == some "firefox-container-7"
    hostname := fun u =>
      if u = "https://t.co/abc" then some "t.co"
      else if u = "https://example.com/" then some "example.com"
      else if u = "about:newtab" then some ""
      else none
    collaborator := fun _ s => s }

/-- Sample preferences: automatic mode on, isolation on, redirector closing on. -/
def samplePref (newTab deletesHistory : String) : Pref :=
  { automaticMode := { active := true, newTab := newTab }
    deletesHistory := { automaticMode := deletesHistory }
    isolation := { active := true }
    closeRedirectorTabs := { active := true, domains := ["t.co"], delay := 2000 } }

/-- The registry right after the constructor, with one tracked temporary
container. -/
def sampleState : State :=
  { creatingInSameContainer := false
    container :=
      { tabContainerMap := []
        lastCreatedInactiveTab := none
        noContainerTabs := []
        tabCreatedAsMacConfirmPage := []
        creatingInSameContainer := false }
    tempContainers := [("firefox-container-7", { clean := true })] }

/-- A non-incognito tab of the sample browser. -/
def sampleTab (id windowId index : Nat) (url cookieStoreId : String) (active : Bool) : Tab :=
  { id := id, windowId := windowId, index := index, url := some url,
    cookieStoreId := some cookieStoreId, incognito := false, active := active }

/-- A browser whose calls all succeed. -/
def sampleHost (tabs : List Tab) (currentWindow : Nat) : Host :=
  { tabs := tabs, currentWindow := currentWindow,
    queryFails := false, createFails := false, removeFails := false }

/-- A tab that is alone in window 2, inside the temporary container. -/
def loneTab : Tab := sampleTab 3 2 0 "about:home" "firefox-container-7" true

/-- A browser with two tabs in the current window 1 and `loneTab` in window 2. -/
def twoWindowHost : Host :=
  sampleHost
    [ sampleTab 1 1 0 "about:newtab" "firefox-default" true,
      sampleTab 2 1 1 "https://example.com/" "firefox-default" false,
      loneTab ] 1

/-- A tab of the temporary container that went to `about:home`. -/
def homeTab : Tab := sampleTab 4 1 0 "about:home" "firefox-container-7" true

/-- A fresh tab in the default container. -/
def newDefaultTab : Tab := sampleTab 4 1 0 "about:newtab" "firefox-default" true

/-- A browser whose current window holds one tab, which is not active. -/
def noActiveTabHost : Host :=
  sampleHost [sampleTab 4 1 0 "about:newtab" "firefox-default" false] 1

/-- A registry in which tab 5 was created as a confirm page and is excluded from
container handling. -/
def confirmPageState : State :=
  { sampleState with
    container :=
      { sampleState.container with
        noContainerTabs := [5]
        tabCreatedAsMacConfirmPage := [5] } }

/-- A tab of the default container that started loading the blank page. -/
def blankTab : Tab := sampleTab 4 1 0 "about:blank" "firefox-default" true

/-- Change info `{ status: 'loading', url: 'about:blank' }`. -/
def loadingBlank : ChangeInfo := ⟨some "loading", some "about:blank"⟩

/-- The earlier inactive tab `L`, at index 0. -/
def earlierTab : Tab := sampleTab 1 1 0 "https://example.com/" "firefox-container-7" false

/-- The newly created inactive tab `T`, at index 1. -/
def laterTab : Tab := sampleTab 2 1 1 "https://example.com/" "firefox-container-7" false

/-- A registry whose pointer references `earlierTab`. -/
def pointerState : State :=
  { sampleState with
    container := { sampleState.container with lastCreatedInactiveTab := some 1 } }

/-- A registry in which tab 7 is excluded from container handling. -/
def excludedState : State :=
  { sampleState with container := { sampleState.container with noContainerTabs := [7] } }

/-- A tab with id 7 in the tracked temporary container. -/
def excludedTab : Tab := sampleTab 7 1 1 "https://example.com/" "firefox-container-7" false

/-- A tab with id 8 in the tracked temporary container, not excluded. -/
def otherTab : Tab := sampleTab 8 1 2 "https://example.com/" "firefox-container-7" false

/-- An incognito tab in the tracked temporary container, showing `about:home`. -/
def incognitoTab : Tab := { homeTab with incognito := true }

/-- A tab seen complete on the redirector `t.co`. -/
def redirectorTab : Tab := sampleTab 9 1 0 "https://t.co/abc" "firefox-container-7" true

/-! ## The invariant of the registry -/

/-- Tab `tabId` is mapped by `tabContainerMap` to a container tracked in
`storage.local.tempContainers`. -/
def mappedToTemporary (s : State) (tabId : Nat) : Bool :=
  match getProp tabId s.container.tabContainerMap with
  | some c => (getProp c s.tempContainers).isSome
  | none => false

/-- No tab id is both in `noContainerTabs` and mapped to a temporary container. -/
def noContainerTabsUnmapped (s : State) : Prop :=
  ∀ tabId ∈ s.container.noContainerTabs, mappedToTemporary s tabId = false

instance (s : State) : Decidable (noContainerTabsUnmapped s) :=
  List.decidableBAll _ _

/-- The condition of lines 68-73 of `onCreated`, on registry `s`. -/
def recordCondition (s : State) (tab : Tab) : Bool :=
  truthy tab.cookieStoreId &&
    !truthy (getProp tab.id s.container.tabContainerMap) &&
    tempContainersTruthy (keyOf tab.cookieStoreId) s.tempContainers

/-- The pointer `lastCreatedInactiveTab` is `p` in the registry `st` a handler
returns, or it was `p` in the registry on which the handler made the
collaborator call that produced `st`. -/
def pointerLeftAt (env : Env) (st : State) (p : Option Nat) : Prop :=
  st.container.lastCreatedInactiveTab = p ∨
    ∃ e s', st = env.collaborator e s' ∧ s'.container.lastCreatedInactiveTab = p

/-- Registry `st` comes from registry `s` either by writes of `tabs.js` alone,
which leave the container object and the keys of `tempContainers` as they are,
or by a collaborator call made on `s`. -/
def steppedFrom (env : Env) (s st : State) : Prop :=
  (st.container = s.container ∧
    ∀ c, (getProp c st.tempContainers).isSome = (getProp c s.tempContainers).isSome) ∨
  ∃ e, st = env.collaborator e s

/-! ## Lemmas on the handlers -/

theorem remove_st (s : State) (h : Host) (tab : Tab) : (remove s h tab).st = s := by
  unfold remove
  repeat' split
  all_goals rfl

theorem getProp_markNotClean (k c : String) (l : List (String × TempContainer)) :
    (getProp c (markNotClean k l)).isSome = (getProp c l).isSome := by
  induction l with
  | nil => rfl
  | cons p rest ih =>
    obtain ⟨k', v⟩ := p
    simp only [markNotClean]
    split
    · simp only [getProp]
      split <;> rfl
    · simp only [getProp]
      split
      · rfl
      · exact ih

theorem maybeReload_st (env : Env) (pref : Pref) (s : State) (h : Host)
    (tab : Tab) (changeInfo : ChangeInfo) :
    steppedFrom env s (maybeReloadInTempContainer env pref s h tab changeInfo).st := by
  simp only [maybeReloadInTempContainer]
  split_ifs
  all_goals first
    | exact Or.inl ⟨rfl, fun _ => rfl⟩
    | exact Or.inr ⟨_, rfl⟩
    | exact Or.inl ⟨rfl, fun c => getProp_markNotClean _ c _⟩
    | (split
       · exact Or.inl ⟨rfl, fun _ => rfl⟩
       · exact Or.inl ⟨by rw [remove_st], fun _ => by rw [remove_st]⟩)

theorem maybeReload_excluded (env : Env) (pref : Pref) (s : State) (h : Host)
    (tab : Tab) (changeInfo : ChangeInfo) (hinc : tab.incognito = false)
    (hmem : tab.id ∈ s.container.noContainerTabs) :
    (maybeReloadInTempContainer env pref s h tab changeInfo).st = s := by
  simp only [maybeReloadInTempContainer, hinc, hmem]
  split_ifs <;> rfl

theorem maybeReload_pointer (env : Env) (pref : Pref) (s : State) (h : Host)
    (tab : Tab) (changeInfo : ChangeInfo) :
    pointerLeftAt env (maybeReloadInTempContainer env pref s h tab changeInfo).st
      s.container.lastCreatedInactiveTab := by
  rcases maybeReload_st env pref s h tab changeInfo with ⟨hc, _⟩ | ⟨e, he⟩
  · exact Or.inl (by rw [hc])
  · exact Or.inr ⟨e, s, he, rfl⟩

theorem invariant_congr (s1 s : State)
    (hmap : s1.container.tabContainerMap = s.container.tabContainerMap)
    (hnc : s1.container.noContainerTabs = s.container.noContainerTabs)
    (htc : ∀ c, (getProp c s1.tempContainers).isSome = (getProp c s.tempContainers).isSome) :
    noContainerTabsUnmapped s1 ↔ noContainerTabsUnmapped s := by
  have hm : ∀ t, mappedToTemporary s1 t = mappedToTemporary s t := by
    intro t
    unfold mappedToTemporary
    rw [hmap]
    split
    · exact htc _
    · rfl
  unfold noContainerTabsUnmapped
  rw [hnc]
  simp only [hm]

theorem maybeReload_invariant (env : Env) (pref : Pref) (s : State) (h : Host)
    (tab : Tab) (changeInfo : ChangeInfo)
    (hcollab : ∀ e s', noContainerTabsUnmapped s' →
      noContainerTabsUnmapped (env.collaborator e s'))
    (hinv : noContainerTabsUnmapped s) :
    noContainerTabsUnmapped (maybeReloadInTempContainer env pref s h tab changeInfo).st := by
  rcases maybeReload_st env pref s h tab changeInfo with ⟨hc, ht⟩ | ⟨e, he⟩
  · exact (invariant_congr _ s (by rw [hc]) (by rw [hc]) ht).mpr hinv
  · rw [he]
    exact hcollab e s hinv

theorem remove_no_move (s : State) (h : Host) (tab : Tab) (i j : Nat) :
    Event.tabsMove i j ∉ (remove s h tab).trace := by
  unfold remove
  repeat' split
  all_goals simp

theorem addBadge_no_move (pref : Pref) (tabId i j : Nat) :
    Event.tabsMove i j ∉ addBadge pref tabId := by
  unfold addBadge
  split <;> simp

theorem maybeReload_no_move (env : Env) (pref : Pref) (s : State) (h : Host)
    (tab : Tab) (changeInfo : ChangeInfo) (i j : Nat) :
    Event.tabsMove i j ∉ (maybeReloadInTempContainer env pref s h tab changeInfo).trace := by
  simp only [maybeReloadInTempContainer]
  split_ifs <;> try simp [addBadge_no_move]
  split <;> simp [remove_no_move, addBadge_no_move]

theorem onCreatedReorder_no_move_of_le (s : State) (h : Host) (tab : Tab) (last : Nat)
    (L : Tab) (hptr : s.container.lastCreatedInactiveTab = some last)
    (hget : h.get last = .ok L) (hle : L.index ≤ tab.index) :
    onCreatedReorder s h tab = (s, []) := by
  have hnlt : ¬ L.index > tab.index := Nat.not_lt.mpr hle
  unfold onCreatedReorder
  simp only [hptr, hget, hnlt]
  split <;> rfl

theorem onCreatedReorder_move_of_lt (s : State) (h : Host) (tab : Tab) (last : Nat)
    (L : Tab) (hact : tab.active = false)
    (hptr : s.container.lastCreatedInactiveTab = some last)
    (hlast : last ≠ 0) (hne : last ≠ tab.id)
    (hget : h.get last = .ok L) (hlt : tab.index < L.index) :
    onCreatedReorder s h tab =
      ({ s with container := { s.container with lastCreatedInactiveTab := some tab.id } },
        [.tabsMove tab.id L.index]) := by
  unfold onCreatedReorder
  simp [hptr, hget, hlt, hact, hlast, hne]

theorem onCreatedReorder_registry (s : State) (h : Host) (tab : Tab) :
    (onCreatedReorder s h tab).1.container.tabContainerMap = s.container.tabContainerMap ∧
    (onCreatedReorder s h tab).1.container.noContainerTabs = s.container.noContainerTabs ∧
    (onCreatedReorder s h tab).1.tempContainers = s.tempContainers := by
  unfold onCreatedReorder
  repeat' split
  all_goals exact ⟨rfl, rfl, rfl⟩

theorem onCreatedRecord_pointer (s : State) (tab : Tab) :
    (onCreatedRecord s tab).container.lastCreatedInactiveTab
      = s.container.lastCreatedInactiveTab := by
  unfold onCreatedRecord
  split <;> rfl

theorem onCreatedRecord_noContainerTabs (s : State) (tab : Tab) :
    (onCreatedRecord s tab).container.noContainerTabs = s.container.noContainerTabs := by
  unfold onCreatedRecord
  split <;> rfl

theorem onCreated_trace (env : Env) (pref : Pref) (s : State) (h : Host) (tab : Tab)
    (hinc : tab.incognito = false) :
    (onCreated env pref s h tab).trace
      = (onCreatedReorder s h tab).2 ++
        (maybeReloadInTempContainer env pref (onCreatedRecord (onCreatedReorder s h tab).1 tab)
          h tab ChangeInfo.empty).trace := by
  simp [onCreated, hinc]

theorem onCreated_st (env : Env) (pref : Pref) (s : State) (h : Host) (tab : Tab)
    (hinc : tab.incognito = false) :
    (onCreated env pref s h tab).st
      = (maybeReloadInTempContainer env pref (onCreatedRecord (onCreatedReorder s h tab).1 tab)
          h tab ChangeInfo.empty).st := by
  simp [onCreated, hinc]

theorem onCreatedRecord_invariant (s : State) (tab : Tab) (hinv : noContainerTabsUnmapped s) :
    noContainerTabsUnmapped (onCreatedRecord s tab) ↔
      ¬ (tab.id ∈ s.container.noContainerTabs ∧ recordCondition s tab = true ∧
          (getProp (keyOf tab.cookieStoreId) s.tempContainers).isSome = true) := by
  by_cases hc : recordCondition s tab = true
  · have hrec : onCreatedRecord s tab =
        { s with container :=
            { s.container with
              tabContainerMap :=
                (tab.id, keyOf tab.cookieStoreId) :: s.container.tabContainerMap } } := by
      unfold recordCondition at hc
      simp only [onCreatedRecord, hc, if_true]
    rw [hrec]
    constructor
    · intro hpost hbad
      have := hpost tab.id hbad.1
      simp [mappedToTemporary, getProp, hbad.2.2] at this
    · intro hgood tabId hmem
      by_cases heq : tab.id = tabId
      · subst heq
        have hown : (getProp (keyOf tab.cookieStoreId) s.tempContainers).isSome = false := by
          cases hs : (getProp (keyOf tab.cookieStoreId) s.tempContainers).isSome with
          | false => rfl
          | true => exact absurd ⟨hmem, hc, hs⟩ hgood
        simp [mappedToTemporary, getProp, hown]
      · have := hinv tabId hmem
        simpa [mappedToTemporary, getProp, heq] using this
  · have hrec : onCreatedRecord s tab = s := by
      unfold recordCondition at hc
      simp only [onCreatedRecord, hc]
      rfl
    rw [hrec]
    exact ⟨fun _ hbad => hc hbad.2.1, fun _ => hinv⟩

theorem onCreated_invariant (env : Env) (pref : Pref) (s : State) (h : Host) (tab : Tab)
    (hcollab : ∀ e s', noContainerTabsUnmapped s' →
      noContainerTabsUnmapped (env.collaborator e s'))
    (hinv : noContainerTabsUnmapped s) :
    noContainerTabsUnmapped (onCreated env pref s h tab).st ↔
      ¬ (tab.incognito = false ∧ tab.id ∈ s.container.noContainerTabs ∧
          recordCondition s tab = true ∧
          (getProp (keyOf tab.cookieStoreId) s.tempContainers).isSome = true) := by
  cases hinc : tab.incognito with
  | true =>
    have : (onCreated env pref s h tab).st = s := by simp [onCreated, hinc]
    rw [this]
    simp [hinv]
  | false =>
    obtain ⟨hmap, hnc, htc⟩ := onCreatedReorder_registry s h tab
    have hinv1 : noContainerTabsUnmapped (onCreatedReorder s h tab).1 :=
      (invariant_congr _ s hmap hnc (fun c => by rw [htc])).mpr hinv
    have hrec := onCreatedRecord_invariant _ tab hinv1
    simp only [recordCondition, hmap, hnc, htc] at hrec
    rw [onCreated_st env pref s h tab hinc]
    constructor
    · intro hpost hbad
      have hmem : tab.id ∈
          (onCreatedRecord (onCreatedReorder s h tab).1 tab).container.noContainerTabs := by
        rw [onCreatedRecord_noContainerTabs, hnc]
        exact hbad.2.1
      rw [maybeReload_excluded env pref _ h tab ChangeInfo.empty hinc hmem] at hpost
      exact hrec.mp hpost ⟨hbad.2.1, hbad.2.2⟩
    · intro hgood
      apply maybeReload_invariant env pref _ h tab ChangeInfo.empty hcollab
      exact hrec.mpr (fun hbad => hgood ⟨rfl, hbad.1, hbad.2⟩)

theorem onUpdated_invariant (env : Env) (pref : Pref) (s : State) (h : Host)
    (tabId : Nat) (changeInfo : ChangeInfo) (tab : Tab)
    (hcollab : ∀ e s', noContainerTabsUnmapped s' →
      noContainerTabsUnmapped (env.collaborator e s'))
    (hinv : noContainerTabsUnmapped s) :
    noContainerTabsUnmapped (onUpdated env pref s h tabId changeInfo tab).st := by
  have h1 : noContainerTabsUnmapped (onUpdatedHistory env s changeInfo tab).1 := by
    unfold onUpdatedHistory
    split
    · exact hcollab _ _ hinv
    · exact hinv
  simp only [onUpdated]
  repeat' split
  all_goals first
    | exact hinv
    | exact h1
    | exact maybeReload_invariant env pref _ h tab changeInfo hcollab (hcollab _ _ h1)

theorem purge_invariant (s : State) (tabId : Nat) (hinv : noContainerTabsUnmapped s) :
    noContainerTabsUnmapped
      { s with container :=
          { s.container with
            noContainerTabs := s.container.noContainerTabs.filter (fun t => t ≠ tabId) } } := by
  intro t ht
  have hmem : t ∈ s.container.noContainerTabs := (List.mem_filter.mp ht).1
  exact hinv t hmem

theorem onRemoved_invariant (env : Env) (s : State) (h : Host) (tabId : Nat)
    (hcollab : ∀ e s', noContainerTabsUnmapped s' →
      noContainerTabsUnmapped (env.collaborator e s'))
    (hinv : noContainerTabsUnmapped s) :
    noContainerTabsUnmapped (onRemoved env s h tabId).st := by
  simp only [onRemoved]
  split_ifs
  all_goals first
    | exact hinv
    | exact hcollab _ _ hinv
    | exact purge_invariant s tabId hinv
    | exact hcollab _ _ (purge_invariant s tabId hinv)

theorem onActivated_invariant (env : Env) (s : State) (h : Host) (tabId : Nat)
    (hcollab : ∀ e s', noContainerTabsUnmapped s' →
      noContainerTabsUnmapped (env.collaborator e s'))
    (hinv : noContainerTabsUnmapped s) :
    noContainerTabsUnmapped (onActivated env s h tabId).st := by
  have h1 : noContainerTabsUnmapped
      { s with container := { s.container with lastCreatedInactiveTab := none } } := hinv
  unfold onActivated
  repeat' split
  all_goals first
    | exact h1
    | exact hcollab _ _ h1

theorem remove_issues_iff (s : State) (h : Host) (tab : Tab) :
    Event.tabsRemove tab.id ∈ (remove s h tab).trace ↔
      h.queryFails = false ∧ 1 < (h.windowTabs h.currentWindow).length := by
  unfold remove Host.queryCurrentWindow
  cases hq : h.queryFails with
  | true => simp
  | false =>
    by_cases hlen : 1 < (h.windowTabs h.currentWindow).length
    · simp only [Bool.false_eq_true, if_false, gt_iff_lt, hlen, if_true, true_and]
      split <;> simp
    · simp [hlen]

theorem createInSameContainer_flag (s : State) (h : Host) :
    (createInSameContainer s h).st.creatingInSameContainer = true ↔
      h.queryFails = false ∧
        (h.windowTabs h.currentWindow).filter (fun t => t.active) = [] := by
  unfold createInSameContainer Host.queryActiveCurrentWindow createInSameContainerEntered
  cases hq : h.queryFails with
  | true => simp
  | false =>
    cases hl : (h.windowTabs h.currentWindow).filter (fun t => t.active) with
    | nil => simp
    | cons a rest =>
      simp only [Bool.false_eq_true, if_false, List.head?_cons]
      split <;> simp

/-! ## Theorems -/

/-- C2, at the failing input: `loneTab` is the only tab of window 2, the current
window 1 holds two tabs; `remove` counts the tabs of the current window, issues
`browser.tabs.remove(3)` at once, and window 2 is left with no tab. -/
theorem remove_empties_other_window :
    (twoWindowHost.windowTabs loneTab.windowId).length = 1 ∧
    (remove sampleState twoWindowHost loneTab).trace = [.remove loneTab, .tabsRemove 3] ∧
    ((remove sampleState twoWindowHost loneTab).host.windowTabs loneTab.windowId).length = 0 := by
  decide

/-- C3, at the failing input: `createInSameContainer` has set its flag and is
suspended, yet `maybeReloadInTempContainer` reads the flag of the container
object and reloads the new default-container tab into a temporary container. -/
theorem guard_not_honoured :
    (createInSameContainerEntered sampleState).creatingInSameContainer = true ∧
    (maybeReloadInTempContainer sampleEnv (samplePref "created" "never")
        (createInSameContainerEntered sampleState) (sampleHost [newDefaultTab] 1)
        newDefaultTab ChangeInfo.empty).trace
      = [.reloadTabInTempContainer newDefaultTab false] := by
  decide

/-- C4, at the failing input: the query succeeds and returns no active tab;
`createInSameContainer` returns with its flag still set. -/
theorem flag_left_set_without_active_tab :
    noActiveTabHost.queryActiveCurrentWindow = .ok [] ∧
    (createInSameContainer sampleState noActiveTabHost).st.creatingInSameContainer = true ∧
    (createInSameContainer sampleState noActiveTabHost).err = none :=
  ⟨rfl, by decide, by decide⟩

/-- C5, at the failing input: the old tab 4 of the temporary container shows
`about:home` under policy `navigation`; a tab with the fresh id 5 is created in
the default container, tab 4 goes to `remove` and is closed, and `addBadge` is
called with 4, the id of the closed tab, not with 5. -/
theorem badge_goes_to_old_tab :
    (sampleHost [homeTab] 1).create none (some "firefox-default") =
      .ok (sampleTab 5 1 1 "about:newtab" "firefox-default" true,
        sampleHost [homeTab, sampleTab 5 1 1 "about:newtab" "firefox-default" true] 1) ∧
    (maybeReloadInTempContainer sampleEnv (samplePref "navigation" "never") sampleState
        (sampleHost [homeTab] 1) homeTab ChangeInfo.empty).trace
      = [ .tabsCreate none (some "firefox-default"),
          .remove homeTab,
          .tabsRemove 4,
          .addBadge 4,
          .browserActionSetTitle "Automatic Mode on navigation active" 4,
          .browserActionSetBadgeBackgroundColor "#f9f9fa" 4,
          .browserActionSetBadgeText "A" 4 ] :=
  ⟨rfl, by decide⟩

/-- C8, at the failing input: `container.tabCreatedAsMacConfirmPage[5]` is set;
`onRemoved(5)` purges 5 from `noContainerTabs`, then rejects with a `TypeError`
and never calls `container.addToRemoveQueue`. -/
theorem onRemoved_throws_for_confirm_page :
    (onRemoved sampleEnv confirmPageState (sampleHost [] 1) 5).err = some .typeError ∧
    (onRemoved sampleEnv confirmPageState (sampleHost [] 1) 5).trace = [] ∧
    (onRemoved sampleEnv confirmPageState (sampleHost [] 1) 5).st.container.noContainerTabs
      = [] := by
  decide

/-- C1: for an incognito tab, `onCreated`, `onUpdated` and
`maybeReloadInTempContainer` leave the registry and the browser as they were,
reject with nothing, and their whole trace is the one call
`browser.browserAction.disable(tab.id)`. -/
theorem incognito_only_disables (env : Env) (pref : Pref) (s : State) (h : Host)
    (tabId : Nat) (changeInfo : ChangeInfo) (tab : Tab) (hinc : tab.incognito = true) :
    onCreated env pref s h tab = ⟨s, h, [.browserActionDisable tab.id], none⟩ ∧
    onUpdated env pref s h tabId changeInfo tab
      = ⟨s, h, [.browserActionDisable tab.id], none⟩ ∧
    maybeReloadInTempContainer env pref s h tab changeInfo
      = ⟨s, h, [.browserActionDisable tab.id], none⟩ := by
  simp [onCreated, onUpdated, maybeReloadInTempContainer, hinc]

/-- Witness of C1 at `incognitoTab`, under policy `navigation`. -/
theorem incognito_only_disables_witness :
    incognitoTab.incognito = true ∧
    onCreated sampleEnv (samplePref "navigation" "never") sampleState
        (sampleHost [incognitoTab] 1) incognitoTab
      = ⟨sampleState, sampleHost [incognitoTab] 1, [.browserActionDisable 4], none⟩ :=
  ⟨rfl, (incognito_only_disables sampleEnv (samplePref "navigation" "never") sampleState
    (sampleHost [incognitoTab] 1) 4 loadingBlank incognitoTab rfl).1⟩

/-- C6: take a non-incognito tab of the default container, with the guard
inactive (the flag `creatingInSameContainer` that `createInSameContainer` sets
is unset, and so is the property of the container object that the handler
tests), not in `noContainerTabs`, under active automatic mode, rule 7 not
matching, and policy `created` or history deletion `automatic`. The tab shows
`about:home` or `about:newtab`, or its change info is `loading` /
`about:blank`; the change info is the one that comes with the tab, so its
`url`, when present, is the tab's URL. Then `maybeReloadInTempContainer`
rejects with nothing, leaves the browser as it was, and its whole trace is one
call `reloadTabInTempContainer({tab, deletesHistory})` with
`deletesHistory = (pref.deletesHistory.automaticMode === 'automatic')`: no tab
removal, no tab creation, no badge. -/
theorem reload_in_temp_container (env : Env) (pref : Pref) (s : State) (h : Host)
    (tab : Tab) (changeInfo : ChangeInfo)
    (hinc : tab.incognito = false)
    (hguard : s.creatingInSameContainer = false)
    (hread : s.container.creatingInSameContainer = false)
    (hnc : tab.id ∉ s.container.noContainerTabs)
    (hauto : pref.automaticMode.active = true)
    (hdefault : tab.cookieStoreId = some (env.containerPrefix ++ "-default"))
    (hchange : changeInfo.url = none ∨ changeInfo.url = tab.url)
    (hurl : tab.url = some "about:home" ∨ tab.url = some "about:newtab" ∨
      (changeInfo.status = some "loading" ∧ changeInfo.url = some "about:blank"))
    (hrule7 : ¬ (tab.url = some "about:home" ∧ env.isTemporary tab.cookieStoreId = true ∧
      pref.automaticMode.newTab = "navigation"))
    (hpolicy : pref.automaticMode.newTab = "created" ∨
      pref.deletesHistory.automaticMode = "automatic") :
    maybeReloadInTempContainer env pref s h tab changeInfo
      = ⟨env.collaborator (.reloadTabInTempContainer tab
            (pref.deletesHistory.automaticMode == "automatic")) s,
          h,
          [.reloadTabInTempContainer tab (pref.deletesHistory.automaticMode == "automatic")],
          none⟩ := by
  -- the run never reads the flag of the `Tabs` object
  have _ := hguard
  have hmoz : startsWith tab.url "moz-extension://" = false := by
    rcases hurl with hu | hu | ⟨_, hu⟩
    · rw [hu]; decide
    · rw [hu]; decide
    · rcases hchange with hn | he
      · rw [hn] at hu
        exact absurd hu (by simp)
      · rw [← he, hu]; decide
  have hhome : homeNewTabOrBlank tab changeInfo = true := by
    unfold homeNewTabOrBlank
    rcases hurl with hu | hu | ⟨hs, hu⟩ <;> simp [*]
  have h6 : (!(pref.deletesHistory.automaticMode == "automatic") &&
      pref.automaticMode.newTab == "navigation") = false := by
    rcases hpolicy with hp | hp <;> simp [hp]
  have h7 : (tab.url == some "about:home" && env.isTemporary tab.cookieStoreId &&
      pref.automaticMode.newTab == "navigation") = false := by
    by_contra hc
    apply hrule7
    simpa [Bool.and_eq_true, and_assoc] using hc
  have h8 : (pref.automaticMode.newTab == "created" ||
      pref.deletesHistory.automaticMode == "automatic") = true := by
    rcases hpolicy with hp | hp <;> simp [hp]
  unfold maybeReloadInTempContainer
  simp only [hinc, hread, hnc, hmoz, hauto, h6, h7, h8, hhome]
  simp [hdefault]

/-- Witness of C6: `blankTab` starts loading `about:blank` in the default
container under policy `created`. -/
theorem reload_in_temp_container_witness :
    maybeReloadInTempContainer sampleEnv (samplePref "created" "never") sampleState
        (sampleHost [blankTab] 1) blankTab loadingBlank
      = ⟨sampleState, sampleHost [blankTab] 1,
          [.reloadTabInTempContainer blankTab false], none⟩ :=
  reload_in_temp_container sampleEnv (samplePref "created" "never") sampleState
    (sampleHost [blankTab] 1) blankTab loadingBlank rfl rfl rfl (by decide) rfl rfl
    (Or.inr rfl) (Or.inr (Or.inr ⟨rfl, rfl⟩)) (by decide) (Or.inl rfl)

/-- C7, as stated, fails: the pointer references `earlierTab` at index 0, the new
inactive tab `laterTab` of the same, current window is at index 1; `onCreated`
issues no call at all (hence no move) and the pointer still references
`earlierTab`. -/
theorem lower_index_not_moved :
    laterTab.incognito = false ∧ laterTab.active = false ∧
    laterTab.windowId = (sampleHost [earlierTab, laterTab] 1).currentWindow ∧
    earlierTab.windowId = laterTab.windowId ∧
    pointerState.container.lastCreatedInactiveTab = some earlierTab.id ∧
    (sampleHost [earlierTab, laterTab] 1).get earlierTab.id = .ok earlierTab ∧
    earlierTab.id ≠ laterTab.id ∧ earlierTab.index < laterTab.index ∧
    (onCreated sampleEnv (samplePref "created" "never") pointerState
        (sampleHost [earlierTab, laterTab] 1) laterTab).trace = [] ∧
    (onCreated sampleEnv (samplePref "created" "never") pointerState
        (sampleHost [earlierTab, laterTab] 1) laterTab).st.container.lastCreatedInactiveTab
      = some earlierTab.id :=
  ⟨rfl, rfl, rfl, rfl, rfl, rfl, by decide, by decide, by decide, by decide⟩

/-- C7, amended: take a non-incognito, inactive new tab `T` of the current
window, whose pointer (the slot `WINDOW_ID_CURRENT`) holds the non-zero id of an
open tab `L` of that window other than `T`. When `L.index` is greater than
`T.index`, the first call of `onCreated` is
`browser.tabs.move(T.id, { index: L.index })`, it is the only move, and the
pointer is left at `T.id`. When `L.index` is not greater, no move is issued and
the pointer is left at `L.id`. The pointer is left at `p` when it is `p` in the
registry `onCreated` returns, or was `p` when `onCreated` made the collaborator
call that ends its redirect decision. -/
theorem onCreated_moves_to_higher_index (env : Env) (pref : Pref) (s : State) (h : Host)
    (tab : Tab) (last : Nat) (L : Tab)
    (hinc : tab.incognito = false) (hact : tab.active = false)
    (hwin : tab.windowId = h.currentWindow)
    (hptr : s.container.lastCreatedInactiveTab = some last)
    (hlast : last ≠ 0) (hne : last ≠ tab.id) (hget : h.get last = .ok L)
    (hsame : L.windowId = tab.windowId) :
    (tab.index < L.index →
      (∃ rest, (onCreated env pref s h tab).trace = .tabsMove tab.id L.index :: rest ∧
        ∀ i j, Event.tabsMove i j ∉ rest) ∧
      pointerLeftAt env (onCreated env pref s h tab).st (some tab.id)) ∧
    (L.index ≤ tab.index →
      (∀ i j, Event.tabsMove i j ∉ (onCreated env pref s h tab).trace) ∧
      pointerLeftAt env (onCreated env pref s h tab).st (some last)) := by
  -- the slot is read and written whatever the windows of `T` and `L` are
  have _ := hwin
  have _ := hsame
  rw [onCreated_trace env pref s h tab hinc, onCreated_st env pref s h tab hinc]
  constructor
  · intro hlt
    have hp := maybeReload_pointer env pref
      (onCreatedRecord (onCreatedReorder s h tab).1 tab) h tab ChangeInfo.empty
    rw [onCreatedRecord_pointer] at hp
    rw [onCreatedReorder_move_of_lt s h tab last L hact hptr hlast hne hget hlt] at hp ⊢
    exact ⟨⟨_, rfl, fun i j => maybeReload_no_move _ _ _ _ _ _ i j⟩, hp⟩
  · intro hle
    have hp := maybeReload_pointer env pref
      (onCreatedRecord (onCreatedReorder s h tab).1 tab) h tab ChangeInfo.empty
    rw [onCreatedRecord_pointer] at hp
    rw [onCreatedReorder_no_move_of_le s h tab last L hptr hget hle] at hp ⊢
    rw [hptr] at hp
    exact ⟨fun i j => by simpa using maybeReload_no_move _ _ _ _ _ _ i j, hp⟩

/-- Witness of C7 amended: the pointer references tab 1 at index 3, the new tab 2
of the same window is at index 1 and is moved to index 3. -/
theorem onCreated_moves_to_higher_index_witness :
    ∃ rest,
      (onCreated sampleEnv (samplePref "created" "never") pointerState
        (sampleHost [{ earlierTab with index := 3 }, laterTab] 1) laterTab).trace
        = .tabsMove 2 3 :: rest ∧
      ∀ i j, Event.tabsMove i j ∉ rest :=
  ((onCreated_moves_to_higher_index sampleEnv (samplePref "created" "never") pointerState
    (sampleHost [{ earlierTab with index := 3 }, laterTab] 1) laterTab 1
    { earlierTab with index := 3 } rfl rfl rfl rfl (by decide) (by decide) rfl rfl).1
      (by decide)).1

/-- C9: take a tab that `onUpdated` sees complete on a listed hostname while
redirector closing is active. `onUpdated` leaves the timer
`delay(pref.closeRedirectorTabs.delay).then(check)`. When the timer fires on any
registry `s2` and browser `h2`, the check issues `browser.tabs.remove(tabId)`
exactly when `tabId` is still open in `h2` and the hostname of its URL in `h2`
is listed; it issues nothing else, changes no registry state and rejects with
nothing. -/
theorem redirector_closes_on_fire_time_hostname (env : Env) (pref : Pref) (s s2 : State)
    (h h2 : Host) (tabId : Nat) (changeInfo : ChangeInfo) (tab : Tab) (u hostname : String)
    (hinc : tab.incognito = false)
    (hactive : pref.closeRedirectorTabs.active = true)
    (hstatus : changeInfo.status = some "complete")
    (hurl : tab.url = some u) (hhost : env.hostname u = some hostname)
    (hlisted : hostname ∈ pref.closeRedirectorTabs.domains) :
    Event.delayThen pref.closeRedirectorTabs.delay (.redirectorCheck tabId)
      ∈ (onUpdated env pref s h tabId changeInfo tab).trace ∧
    (Event.tabsRemove tabId ∈ (redirectorCheck env pref s2 h2 tabId).trace ↔
      ∃ t v hn, h2.get tabId = .ok t ∧ t.url = some v ∧ env.hostname v = some hn ∧
        hn ∈ pref.closeRedirectorTabs.domains) ∧
    (∀ e ∈ (redirectorCheck env pref s2 h2 tabId).trace, e = .tabsRemove tabId) ∧
    (redirectorCheck env pref s2 h2 tabId).st = s2 ∧
    (redirectorCheck env pref s2 h2 tabId).err = none := by
  refine ⟨?_, ?_, ?_, ?_, ?_⟩
  · have hs : onUpdatedSchedule env pref tabId changeInfo tab
        = .ok [.delayThen pref.closeRedirectorTabs.delay (.redirectorCheck tabId)] := by
      simp [onUpdatedSchedule, hactive, hstatus, hurl, hhost, hlisted]
    simp only [onUpdated, hinc, hs, Bool.false_eq_true, if_false]
    split <;> simp
  · unfold redirectorCheck
    cases hg : h2.get tabId with
    | error e => simp
    | ok t =>
      cases hu : t.url with
      | none => simp [hu]
      | some v =>
        cases hh : env.hostname v with
        | none => simp [hu, hh]
        | some hn =>
          by_cases hl : hn ∈ pref.closeRedirectorTabs.domains
          · simp only [hu, Option.bind, hh, hl, if_true]
            split <;> simp <;> exact ⟨v, hu, hn, hh, hl⟩
          · simp [hu, hh, hl]
  · unfold redirectorCheck
    repeat' split
    all_goals simp
  · unfold redirectorCheck
    repeat' split
    all_goals rfl
  · unfold redirectorCheck
    repeat' split
    all_goals rfl

/-- Witness of C9: the check is scheduled for tab 9 on `t.co`; fired on a
browser in which tab 9 has gone, it rejects with nothing. -/
theorem redirector_closes_on_fire_time_hostname_witness :
    Event.delayThen 2000 (.redirectorCheck 9)
      ∈ (onUpdated sampleEnv (samplePref "created" "never") sampleState
          (sampleHost [redirectorTab] 1) 9 ⟨some "complete", none⟩ redirectorTab).trace ∧
    (redirectorCheck sampleEnv (samplePref "created" "never") sampleState
      (sampleHost [] 1) 9).err = none :=
  have w := redirector_closes_on_fire_time_hostname sampleEnv (samplePref "created" "never")
    sampleState sampleState (sampleHost [redirectorTab] 1) (sampleHost [] 1) 9
    ⟨some "complete", none⟩
    redirectorTab "https://t.co/abc" "t.co" rfl rfl rfl rfl rfl (by decide)
  ⟨w.1, w.2.2.2.2⟩

/-- C10, as stated, fails: tab 7 is in `noContainerTabs` and unmapped, its
container is tracked in `tempContainers`; the registry satisfies the predicate
before `onCreated` and violates it after, tab 7 being now mapped too. -/
theorem onCreated_maps_excluded_tab :
    excludedTab.id ∈ excludedState.container.noContainerTabs ∧
    (getProp (keyOf excludedTab.cookieStoreId) excludedState.tempContainers).isSome = true ∧
    noContainerTabsUnmapped excludedState ∧
    ¬ noContainerTabsUnmapped
      (onCreated sampleEnv (samplePref "created" "never") excludedState (sampleHost [] 1)
        excludedTab).st := by
  decide

/-- C10, amended: let every collaborator call keep the predicate. From a
registry that satisfies the predicate, `onUpdated`, `onRemoved`, `onActivated`
and `maybeReloadInTempContainer` reach, collaborator writes included, a registry
that satisfies it, for every event; `onCreated(tab)` does so exactly when it is
not the case that `tab` is non-incognito, in `noContainerTabs`, has a truthy
`cookieStoreId` tracked in `tempContainers` and no truthy entry in
`tabContainerMap`. -/
theorem handlers_keep_excluded_tabs_unmapped (env : Env) (pref : Pref) (s : State)
    (h : Host)
    (hcollab : ∀ e s', noContainerTabsUnmapped s' →
      noContainerTabsUnmapped (env.collaborator e s'))
    (hinv : noContainerTabsUnmapped s) :
    (∀ tabId changeInfo tab,
      noContainerTabsUnmapped (onUpdated env pref s h tabId changeInfo tab).st) ∧
    (∀ tabId, noContainerTabsUnmapped (onRemoved env s h tabId).st) ∧
    (∀ tabId, noContainerTabsUnmapped (onActivated env s h tabId).st) ∧
    (∀ tab changeInfo,
      noContainerTabsUnmapped (maybeReloadInTempContainer env pref s h tab changeInfo).st) ∧
    (∀ tab, noContainerTabsUnmapped (onCreated env pref s h tab).st ↔
      ¬ (tab.incognito = false ∧ tab.id ∈ s.container.noContainerTabs ∧
          truthy tab.cookieStoreId = true ∧
          truthy (getProp tab.id s.container.tabContainerMap) = false ∧
          (getProp (keyOf tab.cookieStoreId) s.tempContainers).isSome = true)) := by
  refine ⟨fun tabId changeInfo tab =>
      onUpdated_invariant env pref s h tabId changeInfo tab hcollab hinv,
    fun tabId => onRemoved_invariant env s h tabId hcollab hinv,
    fun tabId => onActivated_invariant env s h tabId hcollab hinv,
    fun tab changeInfo => maybeReload_invariant env pref s h tab changeInfo hcollab hinv,
    fun tab => ?_⟩
  rw [onCreated_invariant env pref s h tab hcollab hinv]
  have hiff : (recordCondition s tab = true ∧
        (getProp (keyOf tab.cookieStoreId) s.tempContainers).isSome = true) ↔
      (truthy tab.cookieStoreId = true ∧
        truthy (getProp tab.id s.container.tabContainerMap) = false ∧
        (getProp (keyOf tab.cookieStoreId) s.tempContainers).isSome = true) := by
    unfold recordCondition tempContainersTruthy
    constructor
    · intro ⟨hc, hown⟩
      simp only [Bool.and_eq_true, Bool.not_eq_true'] at hc
      exact ⟨hc.1.1, hc.1.2, hown⟩
    · intro ⟨ht, hm, hown⟩
      simp [ht, hm, hown]
  rw [hiff]

/-- Witness of C10 amended: in `excludedState` tab 7 is excluded and unmapped;
`onCreated` of tab 8, a tab of the tracked temporary container that is not
excluded, maps tab 8 and keeps the predicate. -/
theorem handlers_keep_excluded_tabs_unmapped_witness :
    7 ∈ excludedState.container.noContainerTabs ∧
    (onCreated sampleEnv (samplePref "created" "never") excludedState (sampleHost [] 1)
      otherTab).st.container.tabContainerMap = [(8, "firefox-container-7")] ∧
    noContainerTabsUnmapped
      (onCreated sampleEnv (samplePref "created" "never") excludedState (sampleHost [] 1)
        otherTab).st :=
  ⟨by decide, by decide,
    ((handlers_keep_excluded_tabs_unmapped sampleEnv (samplePref "created" "never")
      excludedState (sampleHost [] 1) (fun _ _ hs => hs) (by decide)).2.2.2.2 otherTab).mpr
      (by decide)⟩

end TemporaryContainers
